import Mathlib

/-!
Shallow embedding of the AD122U04 ADC driver (src/__init__.py) and proofs
about its register-protocol layer.
-/

/-
Conventions of the embedding:

* Device registers are 8-bit; the register file is modelled as `Regs := Nat → Nat`,
  with byte bounds (`regs i < 256`) taken as hypotheses where a proof needs them.
* Every driver method that touches the transport is modelled as a pure function
  returning the list of register-level transport operations it performs (`RegOp`)
  together with its result.  A register read `read_reg(i)` is one transport write
  of the RREG frame plus a one-byte response; at this level it is recorded as
  `RegOp.rd i value`, and the raw frames themselves are modelled separately by
  `read_reg_frame` / `write_reg_frame`.
* Python exceptions are modelled by `PyErr`: `valueError` for `raise ValueError`,
  `nameError` for the `NameError` Python raises when an undefined name is
  evaluated (this happens in `set_vref`'s error message, which references `VREF`
  without `self.`, and in `set_query_drdy_funtion`, which references the
  undefined `reg4`).
* `int.from_bytes(bs, 'little', signed=...)` is modelled by `fromBytesLE` /
  `fromBytesLESigned`.
-/

set_option maxRecDepth 8000

/-- Register file of the device: register index to 8-bit content. -/
def Regs : Type := Nat → Nat

/-- Python exceptions that the embedded driver code can raise. -/
inductive PyErr where
  | valueError
  | nameError
  deriving DecidableEq

/-- One register-level transport operation performed by a driver method. -/
inductive RegOp where
  | rd (idx val : Nat)
  | wr (idx val : Nat)
  | cmd (c : Nat)
  | rawRead (bs : List Nat)
  | sleepOp
  | flushOp
  deriving DecidableEq

/-- Functional update of the register file (effect of a register write). -/
def updateReg (regs : Regs) (idx v : Nat) : Regs :=
  fun j => if j = idx then v else regs j

/-- An all-zero register file, used as a concrete device state. -/
def zeroRegs : Regs := fun _ => 0

/-- Updating a register and reading it back yields the written value. -/
lemma updateReg_same (regs : Regs) (idx v : Nat) : updateReg regs idx v idx = v := by
  simp [updateReg]

/-- Fuel-indexed floor base-2 logarithm (structurally recursive). -/
def log2Aux : Nat → Nat → Nat
  | 0, _ => 0
  | fuel + 1, n => if n < 2 then 0 else 1 + log2Aux fuel (n / 2)

/-- Model of `int(math.log2(value))` on the validated gain values, which are
exact powers of two, so the floor base-2 logarithm is exact. -/
def log2floor (n : Nat) : Nat := log2Aux n n

/-- Project the register file out of a setter result, if it succeeded. -/
def okReg (e : Except PyErr Regs) (idx : Nat) : Option Nat :=
  match e with
  | Except.ok g => some (g idx)
  | Except.error _ => none

-- Device profile constants (class attributes of AD122U04)
def READ_DATA_BYTES : Nat := 3
def READ_DATA_BITS : Nat := 24

-- Command set
def CMD_SYNC : Nat := 0x55
def CMD_RESET : Nat := 0x6
def CMD_START : Nat := 0x8
def CMD_POWERDOWN : Nat := 0x2
def CMD_RDATA : Nat := 0x10
def CMD_RREG : Nat := 0x20
def CMD_WREG : Nat := 0x40

/-- Little-endian unsigned byte decoding, `int.from_bytes(bs, 'little')`. -/
def fromBytesLE : List Nat → Nat
  | [] => 0
  | b :: bs => b + 256 * fromBytesLE bs

/-- Little-endian twos-complement decoding, `int.from_bytes(bs, 'little', signed=True)`. -/
def fromBytesLESigned (bs : List Nat) : Int :=
  let u := fromBytesLE bs
  let w := 8 * bs.length
  if u < 2 ^ (w - 1) then (u : Int) else (u : Int) - 2 ^ w

/-- Frame sent by `read_reg`: `[CMD_SYNC, CMD_RREG | (0xf & reg*2)]`. -/
def read_reg_frame (reg : Nat) : List Nat :=
  [CMD_SYNC, CMD_RREG ||| (0xf &&& reg * 2)]

/-- Frame sent by `write_reg`: `[CMD_SYNC, CMD_WREG | (0xf & reg*2), data]`. -/
def write_reg_frame (reg data : Nat) : List Nat :=
  [CMD_SYNC, CMD_WREG ||| (0xf &&& reg * 2), data]

/-- Model of `read_reg`: one `rd` transaction; the one-byte response is decoded
with `int.from_bytes(..., signed=False, byteorder="little")`. -/
def read_reg (regs : Regs) (reg : Nat) : List RegOp × Nat :=
  ([RegOp.rd reg (regs reg)], fromBytesLE [regs reg])

/-- C6: read_reg writes exactly the frame `[0x55, 0x20 | (idx*2 & 0xF)]` and returns
the one-byte response unsigned; write_reg writes `[0x55, 0x40 | (idx*2 & 0xF), v]`;
index 7 encodes opcode field 0xE and index 8 wraps to 0. -/
theorem C6_reg_frames :
    (∀ idx, read_reg_frame idx = [0x55, 0x20 ||| (idx * 2 &&& 0xF)]) ∧
    (∀ idx v, write_reg_frame idx v = [0x55, 0x40 ||| (idx * 2 &&& 0xF), v]) ∧
    (∀ regs idx, (read_reg regs idx).2 = regs idx) ∧
    read_reg_frame 7 = [0x55, 0x2E] ∧
    read_reg_frame 8 = [0x55, 0x20] ∧
    (∀ v, write_reg_frame 7 v = [0x55, 0x4E, v] ∧ write_reg_frame 8 v = [0x55, 0x40, v]) := by
  refine ⟨?_, ?_, ?_, by decide, by decide, ?_⟩
  · intro idx
    simp [read_reg_frame, CMD_SYNC, CMD_RREG, Nat.and_comm]
  · intro idx v
    simp [write_reg_frame, CMD_SYNC, CMD_WREG, Nat.and_comm]
  · intro regs idx
    simp [read_reg, fromBytesLE]
  · intro v
    constructor <;> simp [write_reg_frame, CMD_SYNC, CMD_WREG] <;> decide

/-- Keys of the Python dict `MUX_CTRL`: tuples, ints, or strings. -/
inductive MuxKey where
  | pair (a b : Nat)
  | num (n : Nat)
  | str (s : String)
  deriving DecidableEq

/-- The `MUX_CTRL` dict, in source order. -/
def MUX_CTRL : List (MuxKey × Nat) :=
  [(MuxKey.pair 0 1, 0x0), (MuxKey.pair 0 2, 0x1), (MuxKey.pair 0 3, 0x2),
   (MuxKey.pair 1 0, 0x3), (MuxKey.pair 1 2, 0x4), (MuxKey.pair 1 3, 0x5),
   (MuxKey.pair 2 3, 0x6), (MuxKey.pair 3 2, 0x7),
   (MuxKey.num 0, 0x8), (MuxKey.num 1, 0x9), (MuxKey.num 2, 0xA), (MuxKey.num 3, 0xB),
   (MuxKey.str "VREFDIFF", 0xC), (MuxKey.str "ASUPPLYDIFF", 0xD),
   (MuxKey.str "ASUPPLYCENTER", 0xE)]

/-- Dict lookup `MUX_CTRL[value]` (`None` models a missing key). -/
def muxLookup (k : MuxKey) : Option Nat :=
  (MUX_CTRL.find? (fun p => p.1 == k)).map Prod.snd

/-- Reverse lookup used by `get_mux`: first key whose code equals `b`. -/
def muxDecode (b : Nat) : Option MuxKey :=
  (MUX_CTRL.find? (fun p => p.2 == b)).map Prod.fst

/-- Model of `set_mux`: membership test first, then read-modify-write of
register 0, keeping the low nibble. -/
def set_mux (regs : Regs) (value : MuxKey) : List RegOp × Except PyErr Regs :=
  match muxLookup value with
  | some mux_code =>
      let reg_0 := regs 0 &&& 0x0f
      let w := (mux_code <<< 4) ||| reg_0
      ([RegOp.rd 0 (regs 0), RegOp.wr 0 w], Except.ok (updateReg regs 0 w))
  | none => ([], Except.error PyErr.valueError)

/-- Model of `get_mux`: read register 0, reverse-look-up its top nibble. -/
def get_mux (regs : Regs) : List RegOp × Option MuxKey :=
  ([RegOp.rd 0 (regs 0)], muxDecode (regs 0 >>> 4))

/-- The valid gains of `set_gain`. -/
def GAINS : List Nat := [1, 2, 4, 8, 16, 32, 64, 128]

/-- Model of `set_gain`: membership test first, then read-modify-write of
register 0 with mask 0xf1; `int(math.log2(value))` is `log2floor` here since the
validated values are exact powers of two. -/
def set_gain (regs : Regs) (value : Nat) : List RegOp × Except PyErr Regs :=
  if value ∈ GAINS then
    let reg_0 := regs 0 &&& 0xf1
    let w := (log2floor value <<< 1) ||| reg_0
    ([RegOp.rd 0 (regs 0), RegOp.wr 0 w], Except.ok (updateReg regs 0 w))
  else ([], Except.error PyErr.valueError)

/-- Model of `get_gain`: `2 ** ((read_reg(0) & 0xf) >> 1)`. -/
def get_gain (regs : Regs) : List RegOp × Nat :=
  ([RegOp.rd 0 (regs 0)], 2 ^ ((regs 0 &&& 0xf) >>> 1))

/-- Model of `set_disable_pga`: read-modify-write of bit 0 of register 0. -/
def set_disable_pga (regs : Regs) (value : Bool) : List RegOp × Except PyErr Regs :=
  let reg_0 := regs 0 &&& 0xfe
  let w := if value then reg_0 ||| 0x1 else reg_0
  ([RegOp.rd 0 (regs 0), RegOp.wr 0 w], Except.ok (updateReg regs 0 w))

/-- Model of `get_disable_pga`: bit-0 test of register 0. -/
def get_disable_pga (regs : Regs) : List RegOp × Bool :=
  ([RegOp.rd 0 (regs 0)], (regs 0 &&& 0x1) == 1)

/-- The `DATA_RATES_NORMAL_MODE` dict, in source order. -/
def DATA_RATES_NORMAL_MODE : List (Nat × Nat) :=
  [(20, 0x0), (45, 0x1), (90, 0x2), (175, 0x3), (330, 0x4), (600, 0x5), (1000, 0x6)]

/-- The `DATA_RATES_TURBO_MODE` dict, in source order. -/
def DATA_RATES_TURBO_MODE : List (Nat × Nat) :=
  [(40, 0x0), (90, 0x1), (180, 0x2), (350, 0x3), (660, 0x4), (1200, 0x5), (2000, 0x6)]

/-- Dict lookup `table[dr]`. -/
def drLookup (table : List (Nat × Nat)) (dr : Nat) : Option Nat :=
  (table.find? (fun p => p.1 == dr)).map Prod.snd

/-- Reverse lookup used by `get_data_rate`: first rate whose code equals `code`. -/
def drRevLookup (table : List (Nat × Nat)) (code : Nat) : Option Nat :=
  (table.find? (fun p => p.2 == code)).map Prod.fst

/-- Model of `set_data_rate`.  NOTE the source reads register 1 BEFORE testing
membership, so the invalid path still performs one register read. -/
def set_data_rate (regs : Regs) (dr : Nat) : List RegOp × Except PyErr Regs :=
  let reg_1 := regs 1 &&& 0x0f
  match drLookup DATA_RATES_NORMAL_MODE dr with
  | some drv =>
      let w := (drv <<< 5) ||| reg_1
      ([RegOp.rd 1 (regs 1), RegOp.wr 1 w], Except.ok (updateReg regs 1 w))
  | none =>
      match drLookup DATA_RATES_TURBO_MODE dr with
      | some drv =>
          let w := ((drv <<< 5) + 16) ||| reg_1
          ([RegOp.rd 1 (regs 1), RegOp.wr 1 w], Except.ok (updateReg regs 1 w))
      | none => ([RegOp.rd 1 (regs 1)], Except.error PyErr.valueError)

/-- Pure decode of a register-1 value as done by `get_data_rate`: the loop over
the chosen table with `dr = 0` as default is a reverse lookup with default 0. -/
def drDecode (w : Nat) : Nat × Bool :=
  let reg_1 := (w &&& 0xf0) >>> 4
  let turbomode := (reg_1 &&& 0x1) != 0
  let drv := reg_1 >>> 1
  let dr := if turbomode then (drRevLookup DATA_RATES_TURBO_MODE drv).getD 0
            else (drRevLookup DATA_RATES_NORMAL_MODE drv).getD 0
  (dr, turbomode)

/-- Model of `get_data_rate`. -/
def get_data_rate (regs : Regs) : List RegOp × Nat × Bool :=
  ([RegOp.rd 1 (regs 1)], drDecode (regs 1))

/-- The `VREF` dict, in source order. -/
def VREF : List (String × Nat) :=
  [("INTERNAL", 0x0), ("EXTERNAL", 0x1), ("ANALOGSUPPLY", 0x2)]

/-- Dict lookup `VREF[value]`. -/
def vrefLookup (s : String) : Option Nat :=
  (VREF.find? (fun p => p.1 == s)).map Prod.snd

/-- Model of `set_vref`.  NOTE two faithful quirks of the source: register 1 is
read BEFORE the membership test, and its mask is 0xf1, which also clears bit 3
(the continuous-conversion bit) even though the vref field is only bits 1-2.
On the invalid path the source attempts `raise ValueError(...)` but the message
references `VREF` without `self.`, so Python raises `NameError` while building
the message. -/
def set_vref (regs : Regs) (value : String) : List RegOp × Except PyErr Regs :=
  let reg_1 := regs 1 &&& 0xf1
  match vrefLookup value with
  | some c =>
      let w := reg_1 ||| (c <<< 1)
      ([RegOp.rd 1 (regs 1), RegOp.wr 1 w], Except.ok (updateReg regs 1 w))
  | none => ([RegOp.rd 1 (regs 1)], Except.error PyErr.nameError)

/-- Pure decode of a register-1 value as done by `get_vref`: bits 1-2, with
code 0x3 aliased to 0x2, then reverse lookup in `VREF`. -/
def vrefDecode (w : Nat) : Option String :=
  let vref0 := (w &&& 0x07) >>> 1
  let vref := if vref0 == 0x3 then 0x2 else vref0
  (VREF.find? (fun p => p.2 == vref)).map Prod.fst

/-- Model of `get_vref`. -/
def get_vref (regs : Regs) : List RegOp × Option String :=
  ([RegOp.rd 1 (regs 1)], vrefDecode (regs 1))

/-- The `GPIO_DATA` dict, in source order. -/
def GPIO_DATA : List (Nat × Nat) := [(2, 0x4), (1, 0x2), (0, 0x1)]

/-- The `GPIO_DIR` dict, in source order. -/
def GPIO_DIR : List (Nat × Nat) := [(2, 0x40), (1, 0x20), (0, 0x10)]

/-- Dict lookup `GPIO_DATA[io]`; `None` models `io not in GPIO_DATA.keys()`. -/
def gpioDataMask (io : Nat) : Option Nat :=
  (GPIO_DATA.find? (fun p => p.1 == io)).map Prod.snd

/-- Dict lookup `GPIO_DIR[io]`. -/
def gpioDirMask (io : Nat) : Option Nat :=
  (GPIO_DIR.find? (fun p => p.1 == io)).map Prod.snd

/-- Model of `set_gpio`: validates `io` then `value` before any I/O, then
read-modify-write of the single GPIO data bit of register 4. -/
def set_gpio (regs : Regs) (io value : Nat) : List RegOp × Except PyErr Regs :=
  match gpioDataMask io with
  | none => ([], Except.error PyErr.valueError)
  | some m =>
      if value ∈ [0, 1] then
        let reg_4 := regs 4 &&& (0xff ^^^ m)
        let w := if value != 0 then reg_4 ||| m else reg_4
        ([RegOp.rd 4 (regs 4), RegOp.wr 4 w], Except.ok (updateReg regs 4 w))
      else ([], Except.error PyErr.valueError)

/-- Model of `set_gpio_dir`: validates `io` then `dir` before any I/O, then
read-modify-write of the single GPIO direction bit of register 4. -/
def set_gpio_dir (regs : Regs) (io dir : Nat) : List RegOp × Except PyErr Regs :=
  match gpioDirMask io with
  | none => ([], Except.error PyErr.valueError)
  | some m =>
      if dir ∈ [0, 1] then
        let reg_4 := regs 4
        let w := if dir != 0 then reg_4 ||| m else reg_4 &&& (0xff ^^^ m)
        ([RegOp.rd 4 reg_4, RegOp.wr 4 w], Except.ok (updateReg regs 4 w))
      else ([], Except.error PyErr.valueError)

/-- Model of `get_gpio`.  Faithful to the source defect: the test is
`read_reg(4) | GPIO_DATA[io]` (OR, not AND), which is always truthy. -/
def get_gpio (regs : Regs) (io : Nat) : List RegOp × Except PyErr Nat :=
  match gpioDataMask io with
  | none => ([], Except.error PyErr.valueError)
  | some m =>
      ([RegOp.rd 4 (regs 4)], Except.ok (if (regs 4 ||| m) != 0 then 1 else 0))

/-- Model of `get_gpio_dir`: AND test of the direction bit. -/
def get_gpio_dir (regs : Regs) (io : Nat) : List RegOp × Except PyErr Nat :=
  match gpioDirMask io with
  | none => ([], Except.error PyErr.valueError)
  | some m =>
      ([RegOp.rd 4 (regs 4)], Except.ok (if (regs 4 &&& m) != 0 then 1 else 0))

/-- C4: get_gpio(0) on register 4 = 0x00 returns 1 even though bit 0 is clear,
because the source ORs the register with the mask instead of masking with AND;
the claimed raw bit test is violated. -/
theorem C4_get_gpio_or_defect :
    get_gpio zeroRegs 0 = ([RegOp.rd 4 0], Except.ok 1) ∧ Nat.testBit 0 0 = false := by
  constructor
  · rfl
  · rfl

/-- A register file whose register 1 holds 0x08 (bit 3 set) and all others 0. -/
def regsBit3 : Regs := fun j => if j = 1 then 0x08 else 0

/-- C1: violated by set_vref.  With register 1 holding 0x08 (only bit 3 set),
set_vref("INTERNAL") masks with 0xf1 and writes back 0x00: bit 3, which is not
part of the vref field (bits 1-2), is cleared instead of preserved. -/
theorem C1_set_vref_clears_bit3 :
    (set_vref regsBit3 "INTERNAL").1 = [RegOp.rd 1 0x08, RegOp.wr 1 0x00] ∧
    okReg (set_vref regsBit3 "INTERNAL").2 1 = some 0x00 ∧
    Nat.testBit 0x08 3 = true ∧ Nat.testBit 0x00 3 = false := by
  refine ⟨rfl, rfl, rfl, rfl⟩

/-- C2 counterexample: set_data_rate(999) is invalid, yet the source reads
register 1 before validating, so one transport operation happens before the
ValueError; and set_vref with an invalid key raises NameError (its message
references `VREF` without `self.`), not ValueError — both contradict the claim
of a ValueError with zero transport operations. -/
theorem C2_counterexample :
    (set_data_rate zeroRegs 999).1 = [RegOp.rd 1 0] ∧
    (set_data_rate zeroRegs 999).1 ≠ [] ∧
    (set_data_rate zeroRegs 999).2 = Except.error PyErr.valueError ∧
    (set_vref zeroRegs "BOGUS").2 = Except.error PyErr.nameError := by
  refine ⟨rfl, by decide, rfl, rfl⟩

/-- C2 as amended: set_mux, set_gain, set_gpio and set_gpio_dir reject an input
outside their domain with ValueError and zero transport operations; set_data_rate
performs exactly one register read (of register 1) and then raises ValueError;
set_vref performs exactly one register read and then raises NameError; in every
invalid case no register write occurs, so device register state is unaffected. -/
theorem C2_invalid_inputs (regs : Regs) :
    (∀ k, muxLookup k = none → set_mux regs k = ([], Except.error PyErr.valueError)) ∧
    (∀ g, g ∉ GAINS → set_gain regs g = ([], Except.error PyErr.valueError)) ∧
    (∀ dr, drLookup DATA_RATES_NORMAL_MODE dr = none →
        drLookup DATA_RATES_TURBO_MODE dr = none →
        set_data_rate regs dr = ([RegOp.rd 1 (regs 1)], Except.error PyErr.valueError)) ∧
    (∀ s, vrefLookup s = none →
        set_vref regs s = ([RegOp.rd 1 (regs 1)], Except.error PyErr.nameError)) ∧
    (∀ io v, gpioDataMask io = none → set_gpio regs io v = ([], Except.error PyErr.valueError)) ∧
    (∀ io v, v ∉ [0, 1] → set_gpio regs io v = ([], Except.error PyErr.valueError)) ∧
    (∀ io d, gpioDirMask io = none →
        set_gpio_dir regs io d = ([], Except.error PyErr.valueError)) ∧
    (∀ io d, d ∉ [0, 1] → set_gpio_dir regs io d = ([], Except.error PyErr.valueError)) := by
  refine ⟨?_, ?_, ?_, ?_, ?_, ?_, ?_, ?_⟩
  · intro k hk; simp [set_mux, hk]
  · intro g hg; simp [set_gain, hg]
  · intro dr hn ht; simp [set_data_rate, hn, ht]
  · intro s hs; simp [set_vref, hs]
  · intro io v hio; simp [set_gpio, hio]
  · intro io v hv
    cases hio : gpioDataMask io with
    | none => simp [set_gpio, hio]
    | some m => simp [set_gpio, hio, hv]
  · intro io d hio; simp [set_gpio_dir, hio]
  · intro io d hd
    cases hio : gpioDirMask io with
    | none => simp [set_gpio_dir, hio]
    | some m => simp [set_gpio_dir, hio, hd]

/-- C2 witness: the amended behavior at the concrete invalid inputs named by the
spec (mux=5, gain=3, data rate=999, GPIO index=9, direction=5, vref key absent). -/
theorem C2_invalid_inputs_witness :
    set_mux zeroRegs (MuxKey.num 5) = ([], Except.error PyErr.valueError) ∧
    set_gain zeroRegs 3 = ([], Except.error PyErr.valueError) ∧
    set_data_rate zeroRegs 999 = ([RegOp.rd 1 0], Except.error PyErr.valueError) ∧
    set_vref zeroRegs "BOGUS" = ([RegOp.rd 1 0], Except.error PyErr.nameError) ∧
    set_gpio zeroRegs 9 0 = ([], Except.error PyErr.valueError) ∧
    set_gpio zeroRegs 0 7 = ([], Except.error PyErr.valueError) ∧
    set_gpio_dir zeroRegs 9 0 = ([], Except.error PyErr.valueError) ∧
    set_gpio_dir zeroRegs 0 5 = ([], Except.error PyErr.valueError) := by
  obtain ⟨hm, hg, hdr, hv, hga, hgb, hda, hdb⟩ := C2_invalid_inputs zeroRegs
  exact ⟨hm _ (by decide), hg _ (by decide), hdr _ (by decide) (by decide),
         hv _ (by decide), hga 9 0 (by decide), hgb 0 7 (by decide),
         hda 9 0 (by decide), hdb 0 5 (by decide)⟩

/-- Model of the `count != 1` branch of `read_data`: save registers 1 and 3,
set the auto-mode bit of register 1 and the enable bit of register 3, start,
read `count` raw samples from the transport (each one `serial.read(READ_DATA_BYTES)`,
decoded little-endian signed), powerdown, then write back `reg_3 & 0xfe` and
`reg_1 & 0xf7`, sleep and flush.  `incoming i` is the byte string returned by
the i-th `serial.read` call of this invocation. -/
def read_data_multi (regs : Regs) (count : Nat) (incoming : Nat → List Nat) :
    List RegOp × Regs × List Int :=
  let reg_1 := regs 1
  let reg_3 := regs 3
  let regsA := updateReg regs 1 (reg_1 ||| 0x8)
  let regsB := updateReg regsA 3 (reg_3 ||| 0x1)
  let data := (List.range count).map (fun i => fromBytesLESigned (incoming i))
  let regsC := updateReg regsB 3 (reg_3 &&& 0xfe)
  let regsD := updateReg regsC 1 (reg_1 &&& 0xf7)
  ([RegOp.rd 1 reg_1, RegOp.rd 3 reg_3,
    RegOp.wr 1 (reg_1 ||| 0x8), RegOp.wr 3 (reg_3 ||| 0x1), RegOp.cmd CMD_START] ++
   (List.range count).map (fun i => RegOp.rawRead (incoming i)) ++
   [RegOp.cmd CMD_POWERDOWN, RegOp.wr 3 (reg_3 &&& 0xfe), RegOp.wr 1 (reg_1 &&& 0xf7),
    RegOp.sleepOp, RegOp.flushOp],
   regsD, data)

/-- C3 counterexample: with register 1 holding 0x08 before the call (bit 3, the
auto-mode bit, already set), read_data(2) ends with register 1 equal to
`0x08 & 0xf7 = 0x00`, not its pre-call value 0x08 — the claimed restoration for
every pre-call content is false. -/
theorem C3_counterexample :
    (read_data_multi regsBit3 2 (fun _ => [0, 0, 0])).2.1 1 = 0 ∧ regsBit3 1 = 0x08 := by
  refine ⟨rfl, rfl⟩

/-- C3 as amended: for count > 1, read_data(count) returns exactly count signed
samples in acquisition order, each decoded little-endian twos-complement from a
READ_DATA_BYTES-byte transport read; afterwards register 3 holds its pre-call
value AND-ed with 0xfe and register 1 its pre-call value AND-ed with 0xf7, which
equal the pre-call values exactly when bit 0 of register 3 and bit 3 of
register 1 were clear before the call. -/
theorem C3_read_data_multi (regs : Regs) (count : Nat) (incoming : Nat → List Nat)
    (_hc : 1 < count) (h1 : regs 1 < 256) (h3 : regs 3 < 256) :
    (read_data_multi regs count incoming).2.2.length = count ∧
    (∀ i, i < count →
      ((read_data_multi regs count incoming).2.2)[i]? =
        some (fromBytesLESigned (incoming i))) ∧
    (read_data_multi regs count incoming).2.1 3 = regs 3 &&& 0xfe ∧
    (read_data_multi regs count incoming).2.1 1 = regs 1 &&& 0xf7 ∧
    (regs 3 &&& 0x1 = 0 → (read_data_multi regs count incoming).2.1 3 = regs 3) ∧
    (regs 1 &&& 0x8 = 0 → (read_data_multi regs count incoming).2.1 1 = regs 1) := by
  have hmask3 : ∀ s, s < 256 → s &&& 0x1 = 0 → s &&& 0xfe = s := by decide
  have hmask1 : ∀ s, s < 256 → s &&& 0x8 = 0 → s &&& 0xf7 = s := by decide
  refine ⟨?_, ?_, ?_, ?_, ?_, ?_⟩
  · simp [read_data_multi]
  · intro i hi
    simp [read_data_multi, List.getElem?_map, List.getElem?_range, hi]
  · simp [read_data_multi, updateReg]
  · simp [read_data_multi, updateReg]
  · intro h
    simp [read_data_multi, updateReg, hmask3 (regs 3) h3 h]
  · intro h
    simp [read_data_multi, updateReg, hmask1 (regs 1) h1 h]

/-- C3 witness: five samples on an all-zero register file: the call returns the
five decoded samples in order and registers 1 and 3 are restored exactly. -/
theorem C3_read_data_multi_witness :
    (read_data_multi zeroRegs 5 (fun _ => [0, 1, 0])).2.2.length = 5 ∧
    ((read_data_multi zeroRegs 5 (fun _ => [0, 1, 0])).2.2)[2]? = some 256 ∧
    (read_data_multi zeroRegs 5 (fun _ => [0, 1, 0])).2.1 3 = zeroRegs 3 ∧
    (read_data_multi zeroRegs 5 (fun _ => [0, 1, 0])).2.1 1 = zeroRegs 1 := by
  obtain ⟨hl, hs, _, _, h3, h1⟩ :=
    C3_read_data_multi zeroRegs 5 (fun _ => [0, 1, 0]) (by decide) (by decide) (by decide)
  refine ⟨hl, ?_, h3 (by decide), h1 (by decide)⟩
  have := hs 2 (by decide)
  simpa [fromBytesLESigned, fromBytesLE] using this

/-- Unpack a successful association-list lookup into membership and equations. -/
lemma lookup_unpack {α : Type} [DecidableEq α] {l : List (α × Nat)} {k : α} {c : Nat}
    (h : (l.find? (fun p => p.1 == k)).map Prod.snd = some c) :
    ∃ p, p ∈ l ∧ p.1 = k ∧ p.2 = c := by
  cases hf : l.find? (fun p => p.1 == k) with
  | none => rw [hf] at h; simp at h
  | some p =>
      rw [hf] at h
      refine ⟨p, List.mem_of_find?_eq_some hf, ?_, ?_⟩
      · have := List.find?_some hf
        simpa using this
      · simpa using h

/-- Round-trip core for the mux field, checked over the table and all low nibbles. -/
lemma muxRoundtripCore :
    ∀ p ∈ MUX_CTRL, ∀ t < 16, muxDecode (((p.2 <<< 4) ||| t) >>> 4) = some p.1 := by
  decide

/-- Round-trip core for the gain field, checked over all gains and 8-bit register values. -/
lemma gainRoundtripCore :
    ∀ g ∈ GAINS, ∀ t < 256,
      2 ^ ((((log2floor g <<< 1) ||| (t &&& 0xf1)) &&& 0xf) >>> 1) = g := by
  decide

/-- Round-trip core for Normal-mode data rates. -/
lemma drNormalRoundtripCore :
    ∀ p ∈ DATA_RATES_NORMAL_MODE, ∀ t < 16, drDecode ((p.2 <<< 5) ||| t) = (p.1, false) := by
  decide

/-- Round-trip core for Turbo-mode data rates. -/
lemma drTurboRoundtripCore :
    ∀ p ∈ DATA_RATES_TURBO_MODE, ∀ t < 16,
      drDecode (((p.2 <<< 5) + 16) ||| t) = (p.1, true) := by
  decide

/-- Round-trip core for the reference-voltage field. -/
lemma vrefRoundtripCore :
    ∀ p ∈ VREF, ∀ t < 256, vrefDecode ((t &&& 0xf1) ||| (p.2 <<< 1)) = some p.1 := by
  decide

/-- Round-trip core for the GPIO direction bits. -/
lemma gpioDirRoundtripCore :
    ∀ q ∈ GPIO_DIR, ∀ d ∈ [0, 1], ∀ t < 256,
      (if ((if d != 0 then t ||| q.2 else t &&& (0xff ^^^ q.2)) &&& q.2) != 0
       then 1 else 0) = d := by
  decide

/-- C7: setter-then-getter round-trips for mux, gain, data rate (both tables),
reference source and GPIO direction, over any 8-bit pre-existing register
contents; for data rate 90 the Normal-mode encoding is chosen, so
get_data_rate afterwards returns (90, false). -/
theorem C7_roundtrip (regs : Regs) (h0 : regs 0 < 256) (h1 : regs 1 < 256)
    (h4 : regs 4 < 256) :
    (∀ k c, muxLookup k = some c →
      ∃ r2, (set_mux regs k).2 = Except.ok r2 ∧ (get_mux r2).2 = some k) ∧
    (∀ g, g ∈ GAINS →
      ∃ r2, (set_gain regs g).2 = Except.ok r2 ∧ (get_gain r2).2 = g) ∧
    (∀ dr c, drLookup DATA_RATES_NORMAL_MODE dr = some c →
      ∃ r2, (set_data_rate regs dr).2 = Except.ok r2 ∧ (get_data_rate r2).2 = (dr, false)) ∧
    (∀ dr c, drLookup DATA_RATES_NORMAL_MODE dr = none →
      drLookup DATA_RATES_TURBO_MODE dr = some c →
      ∃ r2, (set_data_rate regs dr).2 = Except.ok r2 ∧ (get_data_rate r2).2 = (dr, true)) ∧
    (∃ r2, (set_data_rate regs 90).2 = Except.ok r2 ∧ (get_data_rate r2).2 = (90, false)) ∧
    (∀ s c, vrefLookup s = some c →
      ∃ r2, (set_vref regs s).2 = Except.ok r2 ∧ (get_vref r2).2 = some s) ∧
    (∀ io d m, gpioDirMask io = some m → d ∈ [0, 1] →
      ∃ r2, (set_gpio_dir regs io d).2 = Except.ok r2 ∧
        (get_gpio_dir r2 io).2 = Except.ok d) := by
  have hnib1 : regs 1 &&& 0x0f < 16 := lt_of_le_of_lt Nat.and_le_right (by norm_num)
  have hmux : ∀ k c, muxLookup k = some c →
      ∃ r2, (set_mux regs k).2 = Except.ok r2 ∧ (get_mux r2).2 = some k := by
    intro k c hkc
    obtain ⟨p, hmem, hp1, hp2⟩ := lookup_unpack hkc
    refine ⟨updateReg regs 0 ((c <<< 4) ||| (regs 0 &&& 0x0f)), ?_, ?_⟩
    · simp [set_mux, hkc]
    · have ht : regs 0 &&& 0x0f < 16 := lt_of_le_of_lt Nat.and_le_right (by norm_num)
      have hcore := muxRoundtripCore p hmem (regs 0 &&& 0x0f) ht
      simp only [get_mux, updateReg_same]
      rw [← hp1, ← hp2]
      exact hcore
  have hdrn : ∀ dr c, drLookup DATA_RATES_NORMAL_MODE dr = some c →
      ∃ r2, (set_data_rate regs dr).2 = Except.ok r2 ∧ (get_data_rate r2).2 = (dr, false) := by
    intro dr c hdr
    obtain ⟨p, hmem, hp1, hp2⟩ := lookup_unpack hdr
    refine ⟨updateReg regs 1 ((c <<< 5) ||| (regs 1 &&& 0x0f)), ?_, ?_⟩
    · simp [set_data_rate, hdr]
    · have hcore := drNormalRoundtripCore p hmem (regs 1 &&& 0x0f) hnib1
      simp only [get_data_rate, updateReg_same]
      rw [← hp1, ← hp2]
      exact hcore
  refine ⟨hmux, ?_, hdrn, ?_, hdrn 90 2 (by decide), ?_, ?_⟩
  · intro g hg
    refine ⟨updateReg regs 0 ((log2floor g <<< 1) ||| (regs 0 &&& 0xf1)), ?_, ?_⟩
    · simp [set_gain, hg]
    · simp only [get_gain, updateReg_same]
      exact gainRoundtripCore g hg (regs 0) h0
  · intro dr c hn ht
    obtain ⟨p, hmem, hp1, hp2⟩ := lookup_unpack ht
    refine ⟨updateReg regs 1 (((c <<< 5) + 16) ||| (regs 1 &&& 0x0f)), ?_, ?_⟩
    · simp [set_data_rate, hn, ht]
    · have hcore := drTurboRoundtripCore p hmem (regs 1 &&& 0x0f) hnib1
      simp only [get_data_rate, updateReg_same]
      rw [← hp1, ← hp2]
      exact hcore
  · intro s c hs
    obtain ⟨p, hmem, hp1, hp2⟩ := lookup_unpack hs
    refine ⟨updateReg regs 1 ((regs 1 &&& 0xf1) ||| (c <<< 1)), ?_, ?_⟩
    · simp [set_vref, hs]
    · have hcore := vrefRoundtripCore p hmem (regs 1) h1
      simp only [get_vref, updateReg_same]
      rw [← hp1, ← hp2]
      exact hcore
  · intro io d m hio hd
    obtain ⟨q, hmem, hq1, hq2⟩ := lookup_unpack hio
    refine ⟨updateReg regs 4
        (if d != 0 then regs 4 ||| m else regs 4 &&& (0xff ^^^ m)), ?_, ?_⟩
    · simp [set_gpio_dir, hio, hd]
    · have hcore := gpioDirRoundtripCore q hmem d hd (regs 4) h4
      rw [hq2] at hcore
      simp only [get_gpio_dir, hio, updateReg_same, Except.ok.injEq]
      exact hcore

/-- C7 witness: one concrete round-trip per setting over an all-zero register
file: mux pair (1,2), gain 16, data rate 90 (Normal chosen), data rate 2000
(Turbo), vref EXTERNAL, GPIO 2 direction output. -/
theorem C7_roundtrip_witness :
    (∃ r2, (set_mux zeroRegs (MuxKey.pair 1 2)).2 = Except.ok r2 ∧
      (get_mux r2).2 = some (MuxKey.pair 1 2)) ∧
    (∃ r2, (set_gain zeroRegs 16).2 = Except.ok r2 ∧ (get_gain r2).2 = 16) ∧
    (∃ r2, (set_data_rate zeroRegs 90).2 = Except.ok r2 ∧
      (get_data_rate r2).2 = (90, false)) ∧
    (∃ r2, (set_data_rate zeroRegs 2000).2 = Except.ok r2 ∧
      (get_data_rate r2).2 = (2000, true)) ∧
    (∃ r2, (set_vref zeroRegs "EXTERNAL").2 = Except.ok r2 ∧
      (get_vref r2).2 = some "EXTERNAL") ∧
    (∃ r2, (set_gpio_dir zeroRegs 2 1).2 = Except.ok r2 ∧
      (get_gpio_dir r2 2).2 = Except.ok 1) := by
  obtain ⟨hm, hg, _, hdt, hd90, hv, hgd⟩ :=
    C7_roundtrip zeroRegs (by decide) (by decide) (by decide)
  exact ⟨hm _ 0x4 (by decide), hg 16 (by decide), hd90,
         hdt 2000 0x6 (by decide) (by decide), hv _ 0x1 (by decide),
         hgd 2 1 0x40 (by decide) (by decide)⟩

/-- Value returned by the `count == 1` branch of `read_data`: the
READ_DATA_BYTES-byte raw response `bs`, decoded little-endian signed.  The
transport side (start command, readiness polling, RDATA frame) is carried by
`wait_valid_data` and `read_raw_data` and does not affect this value. -/
def read_data_single (bs : List Nat) : Int := fromBytesLESigned bs

/-- Model of `read_data_normalised`: the source computes
`self.read_data()/(2.0**self.READ_DATA_BITS)` but has no `return` statement, so
the Python function returns `None`.  The division is exact in rationals (and in
IEEE doubles for 24-bit samples), so `Rat` models the float faithfully here. -/
def read_data_normalised (bs : List Nat) : Option ℚ :=
  let _q : ℚ := (read_data_single bs : ℚ) / (2 : ℚ) ^ READ_DATA_BITS
  none

/-- Modelled from the spec: the claimed contract of `read_data_normalised`,
which must return the single-sample result divided by `2 ^ READ_DATA_BITS`. -/
def read_data_normalised_claimed (bs : List Nat) : Option ℚ :=
  some ((read_data_single bs : ℚ) / (2 : ℚ) ^ READ_DATA_BITS)

/-- C5: violated — the source computes the normalised value but never returns
it, so the call yields None; on the sample 256 (bytes 00 01 00) the claimed
return value is 256/2^24, which the code does not produce. -/
theorem C5_read_data_normalised_returns_none :
    read_data_normalised [0x00, 0x01, 0x00] = none ∧
    read_data_normalised_claimed [0x00, 0x01, 0x00] = some ((256 : ℚ) / 2 ^ 24) ∧
    read_data_normalised [0x00, 0x01, 0x00] ≠ read_data_normalised_claimed [0x00, 0x01, 0x00] := by
  refine ⟨rfl, ?_, ?_⟩
  · simp [read_data_normalised_claimed, read_data_single, fromBytesLESigned, fromBytesLE,
      READ_DATA_BITS]
  · intro h
    simp [read_data_normalised, read_data_normalised_claimed] at h

/-- Model of `set_query_drdy_funtion`.  The source reads register 4 and then,
in BOTH branches, evaluates the undefined name `reg4` (the local variable is
`reg_4`), so Python raises NameError before any write; `write_reg` is moreover
called with a single argument.  The probe is modelled as a Bool (installed or
None); the `self._query_drdy_pin_function = funcptr` line is never reached. -/
def set_query_drdy_funtion (regs : Regs) (hasFunc : Bool) : List RegOp × Except PyErr Regs :=
  let reg_4 := regs 4
  if hasFunc = false then ([RegOp.rd 4 reg_4], Except.error PyErr.nameError)
  else ([RegOp.rd 4 reg_4], Except.error PyErr.nameError)

/-- C8: violated — installing a probe (or clearing it) always raises NameError
after the single register read: `reg4` is undefined in both branches, so no
write of register 4 happens and the call never completes without raising. -/
theorem C8_set_query_drdy_raises :
    set_query_drdy_funtion zeroRegs true = ([RegOp.rd 4 0], Except.error PyErr.nameError) ∧
    set_query_drdy_funtion zeroRegs false = ([RegOp.rd 4 0], Except.error PyErr.nameError) := by
  exact ⟨rfl, rfl⟩

/-- The polling loop of `wait_valid_data`, step-indexed by `fuel` (the source is
`while True`).  Each iteration performs one readiness check (`ready checks`),
then decrements `timeout` and exits when it reaches exactly 0.  Returns the
number of readiness checks performed if the loop exits within `fuel`
iterations, `none` otherwise. -/
def waitLoop (ready : Nat → Bool) : Int → Nat → Nat → Option Nat
  | _, _, 0 => none
  | timeout, checks, fuel + 1 =>
    if ready checks then some (checks + 1)
    else if timeout - 1 = 0 then some (checks + 1)
    else waitLoop ready (timeout - 1) (checks + 1) fuel

/-- Register strategy of `wait_valid_data` (default timeout 100): each check is
one read of register 2, testing bit 0x80; `status i` is the value register 2
holds at the i-th poll. -/
def wait_valid_data_reg (status : Nat → Nat) (timeout : Int) (fuel : Nat) : Option Nat :=
  waitLoop (fun i => (status i &&& 0x80) != 0) timeout 0 fuel

/-- Probe strategy of `wait_valid_data`: each check is one call of the
installed probe (with a 1 ms sleep after a false result, irrelevant to the
check count). -/
def wait_valid_data_probe (probe : Nat → Bool) (timeout : Int) (fuel : Nat) : Option Nat :=
  waitLoop probe timeout 0 fuel

/-- C9 counterexample: with timeout = 0 and data ready at once, the loop
performs one readiness check before returning, exceeding the claimed bound of
at most 0 checks (the countdown `timeout -= 1; if timeout == 0` never sees 0
when it starts there). -/
theorem C9_counterexample :
    wait_valid_data_reg (fun _ => 0x80) 0 1 = some 1 ∧ ¬ ((1 : Int) ≤ 0) := by
  refine ⟨rfl, by decide⟩

/-- Helper for C9: for a positive countdown the loop exits within `timeout`
iterations, having performed at most `checks + timeout` readiness checks. -/
lemma waitLoop_returns (ready : Nat → Bool) :
    ∀ (fuel : Nat) (timeout : Int) (checks : Nat), 0 < timeout → timeout ≤ (fuel : Int) →
      ∃ n, waitLoop ready timeout checks fuel = some n ∧ (n : Int) ≤ checks + timeout := by
  intro fuel
  induction fuel with
  | zero => intro timeout checks hpos hle; omega
  | succ f ih =>
      intro timeout checks hpos hle
      by_cases hr : ready checks
      · exact ⟨checks + 1, by simp [waitLoop, hr], by push_cast; omega⟩
      · by_cases hz : timeout - 1 = 0
        · exact ⟨checks + 1, by simp [waitLoop, hr, hz], by push_cast; omega⟩
        · obtain ⟨n, hn, hb⟩ := ih (timeout - 1) (checks + 1) (by omega) (by push_cast at hle ⊢; omega)
          refine ⟨n, ?_, by push_cast at hb ⊢; omega⟩
          simpa [waitLoop, hr, hz] using hn

/-- C9 as amended: for every timeout ≥ 1 (the default is 100), wait_valid_data
performs at most `timeout` readiness checks before returning — at most
`timeout` reads of register 2 under the register strategy and at most `timeout`
probe calls under the probe strategy — and it returns (within `timeout` loop
iterations) even when readiness is never observed; for timeout ≤ 0 the
countdown skips past zero, so the claim fails as stated for every integer. -/
theorem C9_wait_bounded (status : Nat → Nat) (probe : Nat → Bool) (timeout : Int)
    (h : 1 ≤ timeout) :
    (∃ n, wait_valid_data_reg status timeout timeout.toNat = some n ∧ (n : Int) ≤ timeout) ∧
    (∃ n, wait_valid_data_probe probe timeout timeout.toNat = some n ∧ (n : Int) ≤ timeout) := by
  constructor
  · obtain ⟨n, hn, hb⟩ := waitLoop_returns (fun i => (status i &&& 0x80) != 0)
      timeout.toNat timeout 0 (by omega) (by omega)
    exact ⟨n, hn, by push_cast at hb ⊢; omega⟩
  · obtain ⟨n, hn, hb⟩ := waitLoop_returns probe timeout.toNat timeout 0 (by omega) (by omega)
    exact ⟨n, hn, by push_cast at hb ⊢; omega⟩

/-- C9 witness: the default budget 100 with readiness never observed — both
strategies return after at most 100 checks. -/
theorem C9_wait_bounded_witness :
    (1 : Int) ≤ 100 ∧
    (∃ n, wait_valid_data_reg (fun _ => 0) 100 100 = some n ∧ (n : Int) ≤ 100) ∧
    (∃ n, wait_valid_data_probe (fun _ => false) 100 100 = some n ∧ (n : Int) ≤ 100) := by
  have h := C9_wait_bounded (fun _ => 0) (fun _ => false) 100 (by decide)
  exact ⟨by decide, h.1, h.2⟩

/-- Core for C10: an 8-bit register-1 value whose rate code (bits 5-7) is 0x7
decodes to data rate 0 with the turbo flag taken from bit 4. -/
lemma drDecodeUnknownCore :
    ∀ s < 256, (s >>> 5) &&& 0x7 = 0x7 → drDecode s = (0, (s &&& 0x10) != 0) := by
  decide

/-- C10: on any 8-bit register-1 content with rate code 0x7 (present in neither
table) get_data_rate does not raise and returns (0, turbo) with turbo the flag
bit 4 — and 0 is a rate outside both semantic domains. -/
theorem C10_get_data_rate_unknown_code (regs : Regs) (h : regs 1 < 256)
    (h7 : (regs 1 >>> 5) &&& 0x7 = 0x7) :
    (get_data_rate regs).2 = (0, (regs 1 &&& 0x10) != 0) ∧
    drLookup DATA_RATES_NORMAL_MODE 0 = none ∧
    drLookup DATA_RATES_TURBO_MODE 0 = none := by
  refine ⟨?_, by decide, by decide⟩
  have := drDecodeUnknownCore (regs 1) h h7
  simpa [get_data_rate] using this

/-- C10 witness: register 1 = 0xE0 (rate code 7, turbo flag clear) yields
(0, false). -/
theorem C10_get_data_rate_unknown_code_witness :
    (get_data_rate (fun _ => 0xE0)).2 = (0, false) ∧
    drLookup DATA_RATES_NORMAL_MODE 0 = none ∧
    drLookup DATA_RATES_TURBO_MODE 0 = none := by
  have h := C10_get_data_rate_unknown_code (fun _ => 0xE0) (by decide) (by decide)
  exact ⟨h.1, h.2.1, h.2.2⟩
